import Mathlib

/-!
Shallow embedding of `src/chain_watcher.py` (cosmos-upgrade-watcher).

The program is a single-chain watcher: `ChainWatcher.monitor` runs an
unbounded loop; each iteration sleeps, fetches the current upgrade plan,
reconciles it against a sqlite ledger row keyed by the chain id, and sends
slack notices/reminders.  We embed one loop iteration (a "tick") as a pure
function from the ledger row and an environment (the outcomes of the
external calls of that tick: HTTP fetches, slack sends, sqlite writes) to
a tick outcome: whether the loop continues (`continue`), returns
(the `return` statements in the exception handlers), or lets a Python
exception propagate uncaught; the new ledger row; and the ordered list of
observable events of the tick.

Machine integers are Python ints, embedded as `Int` (unbounded).  The
sqlite table `chains(chain_id, upgrade_height, is_reminder_sent)` holds at
most one row for the watcher's chain id (INSERT OR REPLACE keyed on
chain_id); we embed the slice of the table for this chain id as
`Option LedgerRecord`.
-/

namespace CosmosUpgradeWatcher

/-- Python exceptions that can propagate uncaught out of a tick:
`KeyError` (missing dict key), `ValueError` (failed `int(...)`), and an
exception raised by `slack_sdk`'s `WebhookClient.send` (the source wraps
neither `notify_slack` nor `remind_slack` in a try/except). -/
inductive PyExn where
  | keyError
  | valueError
  | slackError
deriving DecidableEq

/-- Numeric value of a decimal digit character. -/
def digitVal (c : Char) : Nat := c.toNat - '0'.toNat

/-- Fold a list of decimal digit characters into a natural number. -/
def digitsToNat (l : List Char) : Nat := l.foldl (fun a c => 10 * a + digitVal c) 0

/-- Parse a nonempty all-digit character list; `none` otherwise. -/
def parseDigits (l : List Char) : Option Nat :=
  if l ≠ [] ∧ l.all Char.isDigit then some (digitsToNat l) else none

/-- Drop leading and trailing whitespace from a string, as a char list. -/
def stripWs (s : String) : List Char :=
  ((s.toList.dropWhile Char.isWhitespace).reverse.dropWhile Char.isWhitespace).reverse

/-- Model of Python `int(s)` on a string `s`: optional surrounding
whitespace, an optional sign, then decimal digits; `none` models a raised
`ValueError`.  (Python additionally allows single underscores between
digits; strings with underscores are not needed by any claim and are
treated as failing here.) -/
def pyIntOfString (s : String) : Option Int :=
  match stripWs s with
  | '+' :: rest => (parseDigits rest).map (fun n => (n : Int))
  | '-' :: rest => (parseDigits rest).map (fun n => -(n : Int))
  | rest => (parseDigits rest).map (fun n => (n : Int))

/-- An upgrade plan object as returned by `fetch_upgrade_plan`: the
`name` field and the raw `height` field.  `heightField = none` models a
plan dict with no `height` key (accessing it raises `KeyError`);
`heightField = some s` models a string-valued height, converted with
`int(s)` where the source does so. -/
structure Plan where
  name : String
  heightField : Option String
deriving DecidableEq

/-- One row of the sqlite `chains` table, as returned by
`get_db_upgrade` (`SELECT * FROM chains WHERE chain_id=...` then
`fetchone()`): tuple positions 0, 1, 2. -/
structure LedgerRecord where
  chainId : String
  upgradeHeight : Int
  reminderSent : Bool
deriving DecidableEq

/-- Outcome of the `fetch_upgrade_plan` call of a tick, as seen by
`monitor`'s try/except: a returned plan value (`none` for a falsy plan,
i.e. `null`/absent upgrade — the `if not plan` branch), or one of the two
exceptions `monitor` catches. -/
inductive PlanFetchResult where
  | fetched (plan : Option Plan)
  | planNotInRequest
  | upgradeRequestFailed
deriving DecidableEq

/-- Outcome of the `fetch_block_height` call of a tick, as seen by
`monitor`'s try/except. -/
inductive BlockFetchResult where
  | fetched (height : Int)
  | blockNotInRequest
  | blockRequestFailed
deriving DecidableEq

/-- The environment of one tick: the outcomes the external world would
give to each side-effecting call the tick may make.  `notifySendRaises`
(resp. `remindSendRaises`): the `webhook_client.send` inside
`notify_slack` (resp. `remind_slack`) raises.  `upgradeWriteFails`
(resp. `reminderWriteFails`): the sqlite write inside `update_db_upgrade`
(resp. `update_db_reminder`) raises `sqlite3.OperationalError`, which
those methods catch. -/
structure Env where
  planFetch : PlanFetchResult
  blockFetch : BlockFetchResult
  notifySendRaises : Bool
  remindSendRaises : Bool
  upgradeWriteFails : Bool
  reminderWriteFails : Bool
deriving DecidableEq

/-- Observable events of a tick, in program order.  `recordCheck` is the
`last_checked_time` gauge update; `logError t` / `incError t` are
`logger.error` / `error_counter.labels(chain_id, error=t).inc()` with the
error label `t` used in the source. -/
inductive Event where
  | sleep
  | fetchPlan
  | recordCheck
  | readLedger
  | fetchBlock
  | sendNotice
  | sendReminder
  | upsertUpgrade
  | markReminderSent
  | logError (tag : String)
  | incError (tag : String)
deriving DecidableEq

/-- How a tick ends: fall through to the next iteration (`continue` or
the end of the loop body), `return` out of `monitor` (the fetch
exception handlers), or an uncaught Python exception propagating out of
`monitor`. -/
inductive TickResult where
  | nextTick
  | halted
  | raised (e : PyExn)
deriving DecidableEq

/-- Result of one tick: how it ended, the `chains` row for this chain id
afterwards, and the ordered events. -/
structure TickOut where
  result : TickResult
  ledger : Option LedgerRecord
  events : List Event
deriving DecidableEq

/-- Result of a ledger write method (`update_db_upgrade` /
`update_db_reminder`): the new table slice on success; `writeFailed` when
the caught `sqlite3.OperationalError` occurs (the method logs and counts,
the table is unchanged); `raisedExn` when an uncaught exception escapes
the method (only `int(plan['height'])` in `update_db_upgrade`). -/
inductive DbWriteResult where
  | wrote (table : Option LedgerRecord)
  | writeFailed
  | raisedExn (e : PyExn)
deriving DecidableEq

/-- Model of `ChainWatcher.update_db_upgrade(plan)`: evaluates
`int(plan['height'])` (which may raise `KeyError`/`ValueError`, not
caught by the method's `except sqlite3.OperationalError`), then
`INSERT OR REPLACE into chains(chain_id, upgrade_height,
is_reminder_sent) VALUES(cid, height, False)`. -/
def update_db_upgrade (cid : String) (table : Option LedgerRecord) (plan : Plan)
    (opFail : Bool) : DbWriteResult :=
  match plan.heightField with
  | none => .raisedExn .keyError
  | some s =>
    match pyIntOfString s with
    | none => .raisedExn .valueError
    | some h =>
      if opFail then .writeFailed
      else .wrote (some { chainId := cid, upgradeHeight := h, reminderSent := false })

/-- Model of `ChainWatcher.update_db_reminder()`:
`UPDATE chains SET is_reminder_sent=True WHERE chain_id=cid` — sets the
flag on the existing row for this chain id, a no-op when there is none. -/
def update_db_reminder (table : Option LedgerRecord) (opFail : Bool) : DbWriteResult :=
  if opFail then .writeFailed
  else .wrote (table.map (fun rec => { rec with reminderSent := true }))

/-- The new-upgrade branch of the loop body (lines 115-116):
`notify_slack(plan)` then `update_db_upgrade(plan)`.  `notify_slack`
interpolates `plan['height']` and `plan['name']` into the message before
sending, so a missing height key raises `KeyError` before any send; a
raise from `webhook_client.send` propagates uncaught (no try/except);
`update_db_upgrade`'s `int(plan['height'])` may raise after the notice
was already sent. -/
def caseNewUpgrade (cid : String) (table : Option LedgerRecord) (env : Env) (plan : Plan)
    (evs : List Event) : TickOut :=
  match plan.heightField with
  | none => { result := .raised .keyError, ledger := table, events := evs }
  | some _ =>
    let evs := evs ++ [Event.sendNotice]
    if env.notifySendRaises then
      { result := .raised .slackError, ledger := table, events := evs }
    else
      match update_db_upgrade cid table plan env.upgradeWriteFails with
      | .wrote t => { result := .nextTick, ledger := t, events := evs ++ [Event.upsertUpgrade] }
      | .writeFailed =>
        { result := .nextTick, ledger := table,
          events := evs ++ [Event.logError "database_update_failed",
                            Event.incError "database_update_failed"] }
      | .raisedExn e => { result := .raised e, ledger := table, events := evs }

/-- The already-tracked branch of the loop body (lines 94-113), entered
when the ledger row exists and its `upgrade_height >= int(plan['height'])`:
fetch the current block height (a caught failure logs, counts and
`return`s); then, if the reminder was not yet sent and
`recorded - current <= reminder_diff_blocks`, call `remind_slack` (a raise
propagates uncaught) and `update_db_reminder`; then `continue`. -/
def caseTracked (th : Int) (rec : LedgerRecord) (env : Env) (evs : List Event) : TickOut :=
  match env.blockFetch with
  | .blockNotInRequest =>
    { result := .halted, ledger := some rec,
      events := evs ++ [Event.fetchBlock, Event.logError "block_not_in_request",
                        Event.incError "block_not_in_request"] }
  | .blockRequestFailed =>
    { result := .halted, ledger := some rec,
      events := evs ++ [Event.fetchBlock, Event.logError "block_request_failed",
                        Event.incError "block_request_failed"] }
  | .fetched cur =>
    let evs := evs ++ [Event.fetchBlock]
    if rec.reminderSent = false ∧ rec.upgradeHeight - cur ≤ th then
      let evs := evs ++ [Event.sendReminder]
      if env.remindSendRaises then
        { result := .raised .slackError, ledger := some rec, events := evs }
      else
        match update_db_reminder (some rec) env.reminderWriteFails with
        | .wrote t => { result := .nextTick, ledger := t, events := evs ++ [Event.markReminderSent] }
        | .writeFailed =>
          { result := .nextTick, ledger := some rec,
            events := evs ++ [Event.logError "database_update_failed",
                              Event.incError "database_update_failed"] }
        | .raisedExn e => { result := .raised e, ledger := some rec, events := evs }
    else
      { result := .nextTick, ledger := some rec, events := evs }

/-- The loop body of `ChainWatcher.monitor` after the initial
`time.sleep` and the `fetch_upgrade_plan` call, driven by the fetch
outcome: the two exception handlers log, count and `return`; a successful
fetch sets the `last_checked_time` gauge; a falsy plan `continue`s;
otherwise the ledger row is read and the guard
`existing_upgrade and existing_upgrade[1] >= int(plan['height'])`
selects between the tracked and the new-upgrade branch (the right operand
`int(plan['height'])` is evaluated only when a row exists, and may raise
uncaught). -/
def tickCore (cid : String) (th : Int) (table : Option LedgerRecord) (env : Env) : TickOut :=
  match env.planFetch with
  | .planNotInRequest =>
    { result := .halted, ledger := table,
      events := [Event.logError "plan_not_in_request", Event.incError "plan_not_in_request"] }
  | .upgradeRequestFailed =>
    { result := .halted, ledger := table,
      events := [Event.logError "upgrade_request_failed", Event.incError "upgrade_request_failed"] }
  | .fetched none => { result := .nextTick, ledger := table, events := [Event.recordCheck] }
  | .fetched (some plan) =>
    let evs := [Event.recordCheck, Event.readLedger]
    match table with
    | none => caseNewUpgrade cid none env plan evs
    | some rec =>
      match plan.heightField with
      | none => { result := .raised .keyError, ledger := some rec, events := evs }
      | some s =>
        match pyIntOfString s with
        | none => { result := .raised .valueError, ledger := some rec, events := evs }
        | some h =>
          if h ≤ rec.upgradeHeight then caseTracked th rec env evs
          else caseNewUpgrade cid (some rec) env plan evs

/-- One full iteration of the `while True` loop of `ChainWatcher.monitor`:
`time.sleep(interval_seconds)` first, then the `fetch_upgrade_plan` call,
then the rest of the body (`tickCore`). -/
def tick (cid : String) (th : Int) (table : Option LedgerRecord) (env : Env) : TickOut :=
  let core := tickCore cid th table env
  { core with events := Event.sleep :: Event.fetchPlan :: core.events }

/-- The tick dispatched a new-upgrade notice (`notify_slack` reached the
`webhook_client.send` call). -/
def TickOut.sentNotice (o : TickOut) : Prop := Event.sendNotice ∈ o.events

/-- The tick dispatched a pre-upgrade reminder (`remind_slack` was
called). -/
def TickOut.sentReminder (o : TickOut) : Prop := Event.sendReminder ∈ o.events

/-- The tick performed a successful `INSERT OR REPLACE` ledger write. -/
def TickOut.wroteUpsert (o : TickOut) : Prop := Event.upsertUpgrade ∈ o.events

/-- The tick performed a successful reminder-flag ledger write. -/
def TickOut.markedReminder (o : TickOut) : Prop := Event.markReminderSent ∈ o.events

instance (o : TickOut) : Decidable o.sentNotice :=
  inferInstanceAs (Decidable (Event.sendNotice ∈ o.events))

instance (o : TickOut) : Decidable o.sentReminder :=
  inferInstanceAs (Decidable (Event.sendReminder ∈ o.events))

instance (o : TickOut) : Decidable o.wroteUpsert :=
  inferInstanceAs (Decidable (Event.upsertUpgrade ∈ o.events))

instance (o : TickOut) : Decidable o.markedReminder :=
  inferInstanceAs (Decidable (Event.markReminderSent ∈ o.events))

/-- Whether an event is a `logger.error` call. -/
def Event.isLogError : Event → Bool
  | .logError _ => true
  | _ => false

/-- Whether an event is an error-counter increment. -/
def Event.isIncError : Event → Bool
  | .incError _ => true
  | _ => false

/-- The tick called `logger.error`. -/
def TickOut.loggedError (o : TickOut) : Bool := o.events.any Event.isLogError

/-- The tick incremented the error counter. -/
def TickOut.countedError (o : TickOut) : Bool := o.events.any Event.isIncError

/-- Run a finite prefix of `monitor`'s loop, one environment per tick,
threading the ledger row; the run stops (and records the last tick) when
a tick `return`s or raises, as `monitor` does. -/
def runTicks (cid : String) (th : Int) : Option LedgerRecord → List Env → List TickOut
  | _, [] => []
  | table, env :: envs =>
    let o := tick cid th table env
    match o.result with
    | .nextTick => o :: runTicks cid th o.ledger envs
    | _ => [o]

/-- Number of ticks of a run that dispatched a new-upgrade notice. -/
def noticeCount (os : List TickOut) : Nat :=
  os.countP (fun o => decide (Event.sendNotice ∈ o.events))

/-- Number of ticks of a run that dispatched a reminder. -/
def reminderCount (os : List TickOut) : Nat :=
  os.countP (fun o => decide (Event.sendReminder ∈ o.events))

/-- Number of ticks of a run that performed a successful
`INSERT OR REPLACE` ledger write. -/
def upsertCount (os : List TickOut) : Nat :=
  os.countP (fun o => decide (Event.upsertUpgrade ∈ o.events))

/-- The `GET {rpc}/status` response consumed by `fetch_block_height`,
shallowly: the HTTP status code and the nested JSON shape along the path
`result.sync_info.latest_block_height` (each `none` models an absent
key; the leaf is the raw string value fed to `int(...)`). -/
structure SyncInfo where
  latest_block_height : Option String
deriving DecidableEq

/-- The value of the top-level `result` key of the `/status` response. -/
structure StatusResult where
  sync_info : Option SyncInfo
deriving DecidableEq

/-- A delivered `/status` HTTP response. -/
structure StatusResp where
  statusCode : Nat
  result : Option StatusResult
deriving DecidableEq

/-- What a call to `fetch_block_height` does with a delivered response:
return a value, raise one of its two declared exceptions, or let a
`KeyError`/`ValueError` escape. -/
inductive BlockFetchOutcome where
  | value (h : Int)
  | blockRequestFailed
  | blockNotInRequest
  | pyError (e : PyExn)
deriving DecidableEq

/-- Model of `fetch_block_height(endpoint)` on a delivered response: raises
`BlockRequestFailed` when `status_code != 200`; raises `BlockNotInRequest`
when the JSON lacks the top-level `result` key (the only key the source
checks); then evaluates
`int(req.json()['result']['sync_info']['latest_block_height'])`, so a
missing `sync_info` or `latest_block_height` key raises `KeyError` and a
non-integer string raises `ValueError`, both uncaught. -/
def fetch_block_height (resp : StatusResp) : BlockFetchOutcome :=
  if resp.statusCode ≠ 200 then .blockRequestFailed
  else
    match resp.result with
    | none => .blockNotInRequest
    | some r =>
      match r.sync_info with
      | none => .pyError .keyError
      | some si =>
        match si.latest_block_height with
        | none => .pyError .keyError
        | some s =>
          match pyIntOfString s with
          | none => .pyError .valueError
          | some n => .value n

/-- The `GET {endpoint}/cosmos/upgrade/v1beta1/current_plan` response
consumed by `fetch_upgrade_plan`: HTTP status code, whether the JSON has
a `plan` key, and that key's value (`none` for a falsy value). -/
structure PlanResp where
  statusCode : Nat
  hasPlanKey : Bool
  plan : Option Plan
deriving DecidableEq

/-- Model of `fetch_upgrade_plan(endpoint)` on a delivered response: raises
`UpgradeRequestFailed` when `status_code != 200`, raises
`PlanNotInRequest` when the JSON lacks the `plan` key, and otherwise
returns the plan value.  This is the source of `Env.planFetch`. -/
def fetch_upgrade_plan (resp : PlanResp) : PlanFetchResult :=
  if resp.statusCode ≠ 200 then .upgradeRequestFailed
  else if resp.hasPlanKey = false then .planNotInRequest
  else .fetched resp.plan

/-- Environment with all failure flags off: both fetches succeed with the
given outcomes, slack sends and sqlite writes succeed. -/
def mkEnv (pf : PlanFetchResult) (bf : BlockFetchResult) : Env where
  planFetch := pf
  blockFetch := bf
  notifySendRaises := false
  remindSendRaises := false
  upgradeWriteFails := false
  reminderWriteFails := false

/-- The tick's plan fetch succeeded with a truthy plan whose height field
converts to the integer `h` via `int(...)`. -/
def observesHeight (env : Env) (h : Int) : Prop :=
  ∃ plan s, env.planFetch = .fetched (some plan) ∧ plan.heightField = some s ∧
    pyIntOfString s = some h

end CosmosUpgradeWatcher

/-!
Theorems.  Each claim of the specification is settled below; helper
lemmas shared between claims come first where needed.
-/

namespace CosmosUpgradeWatcher

/-- C5: whenever a new upgrade height is recorded via `update_db_upgrade`
with a parseable height string and no sqlite failure, the resulting
ledger row has `is_reminder_sent = False` and replaces any prior row for
the chain id — whatever the prior row was, including one whose reminder
had already been sent. -/
theorem upsert_resets_reminder_flag (cid nm : String) (table : Option LedgerRecord)
    (s : String) (h : Int) (hp : pyIntOfString s = some h) :
    update_db_upgrade cid table ⟨nm, some s⟩ false =
      .wrote (some ⟨cid, h, false⟩) := by
  simp [update_db_upgrade, hp]

/-- C5 witness: replacing a prior row whose reminder had been sent. -/
theorem upsert_resets_reminder_flag_wit :
    update_db_upgrade "cosmoshub-4" (some ⟨"cosmoshub-4", 5000, true⟩) ⟨"v3", some "9000"⟩ false =
      .wrote (some ⟨"cosmoshub-4", 9000, false⟩) :=
  upsert_resets_reminder_flag "cosmoshub-4" "v3" (some ⟨"cosmoshub-4", 5000, true⟩) "9000" 9000
    (by decide)

/-- C9 (amended): every tick of `monitor` begins with the sleep, followed
by the `fetch_upgrade_plan` call — the sleep precedes the plan fetch, not
the other way round. -/
theorem tick_begins_sleep_then_fetch (cid : String) (th : Int) (table : Option LedgerRecord)
    (env : Env) :
    (tick cid th table env).events.take 2 = [Event.sleep, Event.fetchPlan] := rfl

/-- C9 counterexample: on a concrete first tick, the first
`fetch_upgrade_plan` call does not precede the sleep — the loop body
sleeps before fetching. -/
theorem sleep_before_fetch_cex :
    ¬ ((tick "cosmoshub-4" 100 none (mkEnv (.fetched none) (.fetched 0))).events.indexOf
         Event.fetchPlan <
       (tick "cosmoshub-4" 100 none (mkEnv (.fetched none) (.fetched 0))).events.indexOf
         Event.sleep) := by decide

/-- C6: on a tick whose plan fetch fails with either caught exception,
the watcher logs the error, increments the error counter with the
matching kind label, terminates the loop via `return`, leaves the ledger
untouched, and sends no alert. -/
theorem plan_fetch_failure_halts_clean (cid : String) (th : Int) (table : Option LedgerRecord)
    (env : Env)
    (h : env.planFetch = .planNotInRequest ∨ env.planFetch = .upgradeRequestFailed) :
    (tick cid th table env).result = .halted ∧
    (tick cid th table env).ledger = table ∧
    (tick cid th table env).loggedError = true ∧
    (env.planFetch = .planNotInRequest →
      Event.incError "plan_not_in_request" ∈ (tick cid th table env).events) ∧
    (env.planFetch = .upgradeRequestFailed →
      Event.incError "upgrade_request_failed" ∈ (tick cid th table env).events) ∧
    ¬ (tick cid th table env).sentNotice ∧
    ¬ (tick cid th table env).sentReminder ∧
    ¬ (tick cid th table env).wroteUpsert ∧
    ¬ (tick cid th table env).markedReminder := by
  rcases h with h | h <;>
    simp [tick, tickCore, h, TickOut.sentNotice, TickOut.sentReminder, TickOut.wroteUpsert,
      TickOut.markedReminder, TickOut.loggedError, Event.isLogError]

/-- C6 witness: a concrete malformed-response tick halts cleanly. -/
theorem plan_fetch_failure_halts_clean_wit :
    (tick "cosmoshub-4" 100 none (mkEnv .planNotInRequest (.fetched 0))).result = .halted ∧
    (tick "cosmoshub-4" 100 none (mkEnv .planNotInRequest (.fetched 0))).ledger = none ∧
    (tick "cosmoshub-4" 100 none (mkEnv .planNotInRequest (.fetched 0))).loggedError = true ∧
    Event.incError "plan_not_in_request" ∈
      (tick "cosmoshub-4" 100 none (mkEnv .planNotInRequest (.fetched 0))).events ∧
    ¬ (tick "cosmoshub-4" 100 none (mkEnv .planNotInRequest (.fetched 0))).sentNotice := by
  have h := plan_fetch_failure_halts_clean "cosmoshub-4" 100 none
    (mkEnv .planNotInRequest (.fetched 0)) (Or.inl rfl)
  exact ⟨h.1, h.2.1, h.2.2.1, h.2.2.2.1 rfl, h.2.2.2.2.2.1⟩

/-- C7 (amended): `fetch_block_height` raises `BlockRequestFailed` on any
non-200 delivered response, raises `BlockNotInRequest` exactly when the
200 response lacks the top-level `result` key, and on a 200 response with
`result` present lets an uncaught `KeyError` escape when `sync_info` or
`latest_block_height` is missing, an uncaught `ValueError` when the
height string is not an integer, and returns the integer otherwise. -/
theorem fetch_block_height_behavior (resp : StatusResp) :
    (resp.statusCode ≠ 200 → fetch_block_height resp = .blockRequestFailed) ∧
    (resp.statusCode = 200 →
      (fetch_block_height resp = .blockNotInRequest ↔ resp.result = none)) ∧
    (∀ r, resp.statusCode = 200 → resp.result = some r →
      ((r.sync_info = none → fetch_block_height resp = .pyError .keyError) ∧
       (∀ si, r.sync_info = some si → si.latest_block_height = none →
          fetch_block_height resp = .pyError .keyError) ∧
       (∀ si s, r.sync_info = some si → si.latest_block_height = some s →
          pyIntOfString s = none → fetch_block_height resp = .pyError .valueError) ∧
       (∀ si s n, r.sync_info = some si → si.latest_block_height = some s →
          pyIntOfString s = some n → fetch_block_height resp = .value n))) := by
  obtain ⟨code, res⟩ := resp
  refine ⟨fun hc => by simp [fetch_block_height, hc], fun hc => ?_, fun r hc hr => ?_⟩
  · subst hc
    cases res with
    | none => simp [fetch_block_height]
    | some r =>
      cases hsi : r.sync_info with
      | none => simp [fetch_block_height, hsi]
      | some si =>
        cases hlb : si.latest_block_height with
        | none => simp [fetch_block_height, hsi, hlb]
        | some s =>
          cases hp : pyIntOfString s <;> simp [fetch_block_height, hsi, hlb, hp]
  · subst hc
    cases hr
    refine ⟨fun hsi => by simp [fetch_block_height, hsi], fun si hsi hlb => ?_,
      fun si s hsi hlb hp => ?_, fun si s n hsi hlb hp => ?_⟩
    · simp [fetch_block_height, hsi, hlb]
    · simp [fetch_block_height, hsi, hlb, hp]
    · simp [fetch_block_height, hsi, hlb, hp]

/-- C7 witness: a fully well-formed 200 response yields its height. -/
theorem fetch_block_height_behavior_wit :
    fetch_block_height ⟨200, some ⟨some ⟨some "7"⟩⟩⟩ = .value 7 :=
  ((fetch_block_height_behavior ⟨200, some ⟨some ⟨some "7"⟩⟩⟩).2.2 ⟨some ⟨some "7"⟩⟩ rfl
    rfl).2.2.2 ⟨some "7"⟩ "7" 7 rfl rfl (by decide)

/-- C7 counterexample: a 200 response whose `result` object lacks
`sync_info` — the nested field is absent, yet the outcome is an uncaught
`KeyError`, not `BlockNotInRequest`. -/
theorem block_field_missing_cex :
    fetch_block_height ⟨200, some ⟨none⟩⟩ = .pyError .keyError ∧
    fetch_block_height ⟨200, some ⟨none⟩⟩ ≠ .blockNotInRequest := by decide

end CosmosUpgradeWatcher

namespace CosmosUpgradeWatcher

/-- Helper: the already-tracked branch dispatches no new-upgrade notice
in any of its sub-branches. -/
theorem sendNotice_mem_caseTracked (th : Int) (rec : LedgerRecord) (env : Env)
    (evs : List Event) :
    Event.sendNotice ∈ (caseTracked th rec env evs).events ↔ Event.sendNotice ∈ evs := by
  cases hbf : env.blockFetch with
  | fetched cur =>
    simp only [caseTracked, hbf]
    split
    · cases hrr : env.remindSendRaises <;> cases hrf : env.reminderWriteFails <;>
        simp [update_db_reminder, hrr, hrf]
    · simp
  | blockNotInRequest => simp [caseTracked, hbf]
  | blockRequestFailed => simp [caseTracked, hbf]

/-- Helper: the new-upgrade branch always reaches the
`webhook_client.send` of `notify_slack` when the plan has a height
field, whatever the later branches do. -/
theorem sendNotice_mem_caseNewUpgrade (cid : String) (table : Option LedgerRecord) (env : Env)
    (plan : Plan) (evs : List Event) (s : String) (hs : plan.heightField = some s) :
    Event.sendNotice ∈ (caseNewUpgrade cid table env plan evs).events := by
  cases hn : env.notifySendRaises with
  | true => simp [caseNewUpgrade, hs, hn]
  | false =>
    cases hp : pyIntOfString s with
    | none => simp [caseNewUpgrade, update_db_upgrade, hs, hn, hp]
    | some h =>
      cases huf : env.upgradeWriteFails <;>
        simp [caseNewUpgrade, update_db_upgrade, hs, hn, hp, huf]

/-- C1 (amended): on a tick observing a truthy plan with parseable
height `h`, a new-upgrade notice is dispatched if and only if the ledger
has no row for the chain id or the recorded height is strictly lower
than `h`; a recorded height merely different from (i.e. greater than)
`h` dispatches nothing. -/
theorem notice_iff_strictly_higher_plan (cid : String) (th : Int) (table : Option LedgerRecord)
    (env : Env) (plan : Plan) (s : String) (h : Int)
    (hfetch : env.planFetch = .fetched (some plan))
    (hs : plan.heightField = some s) (hp : pyIntOfString s = some h) :
    (tick cid th table env).sentNotice ↔
      (table = none ∨ ∃ rec, table = some rec ∧ rec.upgradeHeight < h) := by
  cases table with
  | none =>
    have hmem := sendNotice_mem_caseNewUpgrade cid none env plan
      [Event.recordCheck, Event.readLedger] s hs
    simp [tick, tickCore, hfetch, TickOut.sentNotice, hmem]
  | some rec =>
    by_cases hle : h ≤ rec.upgradeHeight
    · have hmem := sendNotice_mem_caseTracked th rec env [Event.recordCheck, Event.readLedger]
      simp [tick, tickCore, hfetch, hs, hp, hle, TickOut.sentNotice, hmem]
    · have hmem := sendNotice_mem_caseNewUpgrade cid (some rec) env plan
        [Event.recordCheck, Event.readLedger] s hs
      simp [tick, tickCore, hfetch, hs, hp, hle, TickOut.sentNotice, hmem]
      omega

/-- C1 counterexample: a recorded height of 9000 differs from a freshly
observed plan height of 5000 (strictly lower than the record), yet the
tick dispatches no notice — the source compares with `>=`, not with
equality. -/
theorem notice_lower_height_cex :
    (9000 : Int) ≠ 5000 ∧
    ¬ (tick "cosmoshub-4" 100 (some ⟨"cosmoshub-4", 9000, false⟩)
        (mkEnv (.fetched (some ⟨"v2", some "5000"⟩)) (.fetched 0))).sentNotice := by decide

/-- C1 witness: with a recorded height of 5000 and an observed height of
9000 the notice is dispatched. -/
theorem notice_iff_strictly_higher_plan_wit :
    (tick "cosmoshub-4" 100 (some ⟨"cosmoshub-4", 5000, false⟩)
      (mkEnv (.fetched (some ⟨"v3", some "9000"⟩)) (.fetched 0))).sentNotice :=
  (notice_iff_strictly_higher_plan "cosmoshub-4" 100 (some ⟨"cosmoshub-4", 5000, false⟩)
    (mkEnv (.fetched (some ⟨"v3", some "9000"⟩)) (.fetched 0)) ⟨"v3", some "9000"⟩ "9000" 9000
    rfl rfl (by decide)).mpr (Or.inr ⟨⟨"cosmoshub-4", 5000, false⟩, rfl, by decide⟩)

/-- Helper: in the already-tracked branch with the block height fetched
and the reminder not yet sent, `remind_slack` is reached exactly when
the recorded height minus the current height is at most the threshold. -/
theorem sendReminder_mem_caseTracked (th : Int) (rec : LedgerRecord) (env : Env)
    (evs : List Event) (cur : Int) (hbf : env.blockFetch = .fetched cur)
    (hflag : rec.reminderSent = false) :
    (Event.sendReminder ∈ (caseTracked th rec env evs).events ↔
      (rec.upgradeHeight - cur ≤ th ∨ Event.sendReminder ∈ evs)) := by
  simp only [caseTracked, hbf]
  by_cases hc : rec.reminderSent = false ∧ rec.upgradeHeight - cur ≤ th
  · rw [if_pos hc]
    cases hrr : env.remindSendRaises <;> cases hrf : env.reminderWriteFails <;>
      simp [update_db_reminder, hrr, hrf, hc.2]
  · rw [if_neg hc]
    simp [hflag] at hc
    simp [hc]

/-- C4: on a tick where the ledger row exists with the reminder flag
unset and a recorded height at least the observed plan height, and the
block height fetch succeeds, the reminder is dispatched if and only if
`recorded - current <= threshold` — at the boundary and below it fires,
strictly above it does not. -/
theorem reminder_threshold_boundary (cid : String) (th : Int) (rec : LedgerRecord) (env : Env)
    (plan : Plan) (s : String) (h cur : Int)
    (hfetch : env.planFetch = .fetched (some plan))
    (hs : plan.heightField = some s) (hp : pyIntOfString s = some h)
    (hle : h ≤ rec.upgradeHeight) (hflag : rec.reminderSent = false)
    (hbf : env.blockFetch = .fetched cur) :
    ((tick cid th (some rec) env).sentReminder ↔ rec.upgradeHeight - cur ≤ th) := by
  have hmem := sendReminder_mem_caseTracked th rec env [Event.recordCheck, Event.readLedger]
    cur hbf hflag
  simp [tick, tickCore, hfetch, hs, hp, hle, TickOut.sentReminder, hmem]

/-- C4 witness: 5000 - 4900 = 100 meets the threshold 100, and the
reminder fires. -/
theorem reminder_threshold_boundary_wit :
    ((tick "cosmoshub-4" 100 (some ⟨"cosmoshub-4", 5000, false⟩)
        (mkEnv (.fetched (some ⟨"v2", some "5000"⟩)) (.fetched 4900))).sentReminder ↔
      (5000 : Int) - 4900 ≤ 100) ∧
    (tick "cosmoshub-4" 100 (some ⟨"cosmoshub-4", 5000, false⟩)
      (mkEnv (.fetched (some ⟨"v2", some "5000"⟩)) (.fetched 4900))).sentReminder := by
  have h := reminder_threshold_boundary "cosmoshub-4" 100 ⟨"cosmoshub-4", 5000, false⟩
    (mkEnv (.fetched (some ⟨"v2", some "5000"⟩)) (.fetched 4900)) ⟨"v2", some "5000"⟩
    "5000" 5000 4900 rfl rfl (by decide) (by decide) rfl rfl
  exact ⟨h, h.mpr (by decide)⟩

/-- C10: if the fetched plan is truthy but its height field is missing
or not an integer string, the tick ends in an uncaught
`KeyError`/`ValueError` (terminating `monitor`), with no `logger.error`
call and no error-counter increment. -/
theorem bad_height_field_uncaught_exception (cid : String) (th : Int)
    (table : Option LedgerRecord) (env : Env) (plan : Plan)
    (hfetch : env.planFetch = .fetched (some plan))
    (hn : env.notifySendRaises = false)
    (hbad : plan.heightField = none ∨
      ∃ s, plan.heightField = some s ∧ pyIntOfString s = none) :
    ((tick cid th table env).result = .raised .keyError ∨
     (tick cid th table env).result = .raised .valueError) ∧
    (tick cid th table env).loggedError = false ∧
    (tick cid th table env).countedError = false := by
  rcases hbad with hnone | ⟨s, hs, hps⟩ <;> cases table <;>
    simp [tick, tickCore, caseNewUpgrade, update_db_upgrade, hfetch, hn, TickOut.loggedError,
      TickOut.countedError, Event.isLogError, Event.isIncError, *]

/-- C10 witness: a non-integer height string ends the tick in an
uncaught exception without logging or counting. -/
theorem bad_height_field_uncaught_exception_wit :
    ((tick "cosmoshub-4" 100 none
        (mkEnv (.fetched (some ⟨"v2", some "not-a-number"⟩)) (.fetched 0))).result =
          .raised .keyError ∨
     (tick "cosmoshub-4" 100 none
        (mkEnv (.fetched (some ⟨"v2", some "not-a-number"⟩)) (.fetched 0))).result =
          .raised .valueError) ∧
    (tick "cosmoshub-4" 100 none
      (mkEnv (.fetched (some ⟨"v2", some "not-a-number"⟩)) (.fetched 0))).loggedError = false ∧
    (tick "cosmoshub-4" 100 none
      (mkEnv (.fetched (some ⟨"v2", some "not-a-number"⟩)) (.fetched 0))).countedError = false :=
  bad_height_field_uncaught_exception "cosmoshub-4" 100 none
    (mkEnv (.fetched (some ⟨"v2", some "not-a-number"⟩)) (.fetched 0)) ⟨"v2", some "not-a-number"⟩
    rfl rfl (Or.inr ⟨"not-a-number", rfl, by decide⟩)

/-- C8 counterexample: with the ledger empty and a raising
`webhook_client.send`, the notice-path tick ends in an uncaught
exception — the loop terminates, the error is neither logged nor
counted, and the ledger write that should follow the notice never
happens. -/
theorem notify_raise_terminates_cex :
    (tick "cosmoshub-4" 100 none
      { mkEnv (.fetched (some ⟨"v2", some "5000"⟩)) (.fetched 0) with
          notifySendRaises := true }).result = .raised .slackError ∧
    (tick "cosmoshub-4" 100 none
      { mkEnv (.fetched (some ⟨"v2", some "5000"⟩)) (.fetched 0) with
          notifySendRaises := true }).result ≠ TickResult.nextTick ∧
    ¬ (tick "cosmoshub-4" 100 none
      { mkEnv (.fetched (some ⟨"v2", some "5000"⟩)) (.fetched 0) with
          notifySendRaises := true }).wroteUpsert ∧
    (tick "cosmoshub-4" 100 none
      { mkEnv (.fetched (some ⟨"v2", some "5000"⟩)) (.fetched 0) with
          notifySendRaises := true }).ledger = none := by decide

/-- C8 (amended): a failure raised by an Alert Sink send propagates
uncaught out of `monitor`: on the notice path the tick ends raised, the
ledger write after the notice does not execute and nothing is logged or
counted; on the reminder path the tick ends raised and
`update_db_reminder` does not execute. -/
theorem alert_send_raise_propagates (cid : String) (th : Int) (table : Option LedgerRecord)
    (env : Env) (plan : Plan) (s : String) (h : Int)
    (hfetch : env.planFetch = .fetched (some plan))
    (hs : plan.heightField = some s) (hp : pyIntOfString s = some h) :
    ((∀ rec, table = some rec → rec.upgradeHeight < h) → env.notifySendRaises = true →
      (tick cid th table env).result = .raised .slackError ∧
      (tick cid th table env).ledger = table ∧
      ¬ (tick cid th table env).wroteUpsert ∧
      (tick cid th table env).loggedError = false ∧
      (tick cid th table env).countedError = false) ∧
    (∀ rec cur, table = some rec → h ≤ rec.upgradeHeight → env.blockFetch = .fetched cur →
      rec.reminderSent = false → rec.upgradeHeight - cur ≤ th →
      env.remindSendRaises = true →
      (tick cid th table env).result = .raised .slackError ∧
      (tick cid th table env).ledger = some rec ∧
      ¬ (tick cid th table env).markedReminder ∧
      (tick cid th table env).loggedError = false ∧
      (tick cid th table env).countedError = false) := by
  refine ⟨fun hnew hn => ?_, fun rec cur hrec hle hbf hflag hthr hr => ?_⟩
  · cases table with
    | none =>
      simp [tick, tickCore, caseNewUpgrade, hfetch, hs, hn, TickOut.wroteUpsert,
        TickOut.loggedError, TickOut.countedError, Event.isLogError, Event.isIncError]
    | some rec =>
      have hlt := hnew rec rfl
      have hnle : ¬ h ≤ rec.upgradeHeight := by omega
      simp [tick, tickCore, caseNewUpgrade, hfetch, hs, hp, hnle, hn, TickOut.wroteUpsert,
        TickOut.loggedError, TickOut.countedError, Event.isLogError, Event.isIncError]
  · subst hrec
    have hcond : rec.reminderSent = false ∧ rec.upgradeHeight - cur ≤ th := ⟨hflag, hthr⟩
    simp only [tick, tickCore, hfetch, hs, hp]
    rw [if_pos hle]
    simp only [caseTracked, hbf]
    rw [if_pos hcond, if_pos hr]
    simp [TickOut.markedReminder, TickOut.loggedError, TickOut.countedError,
      Event.isLogError, Event.isIncError]

/-- C8 witness: both send paths, each with its raising send. -/
theorem alert_send_raise_propagates_wit :
    (tick "cosmoshub-4" 100 none
      { mkEnv (.fetched (some ⟨"v2", some "5000"⟩)) (.fetched 0) with
          notifySendRaises := true }).result = .raised .slackError ∧
    (tick "cosmoshub-4" 100 (some ⟨"cosmoshub-4", 5000, false⟩)
      { mkEnv (.fetched (some ⟨"v2", some "5000"⟩)) (.fetched 4950) with
          remindSendRaises := true }).result = .raised .slackError ∧
    ¬ (tick "cosmoshub-4" 100 (some ⟨"cosmoshub-4", 5000, false⟩)
      { mkEnv (.fetched (some ⟨"v2", some "5000"⟩)) (.fetched 4950) with
          remindSendRaises := true }).markedReminder := by
  have h1 := (alert_send_raise_propagates "cosmoshub-4" 100 none
    { mkEnv (.fetched (some ⟨"v2", some "5000"⟩)) (.fetched 0) with notifySendRaises := true }
    ⟨"v2", some "5000"⟩ "5000" 5000 rfl rfl (by decide)).1
    (fun rec hrec => by cases hrec) rfl
  have h2 := (alert_send_raise_propagates "cosmoshub-4" 100 (some ⟨"cosmoshub-4", 5000, false⟩)
    { mkEnv (.fetched (some ⟨"v2", some "5000"⟩)) (.fetched 4950) with remindSendRaises := true }
    ⟨"v2", some "5000"⟩ "5000" 5000 rfl rfl (by decide)).2
    ⟨"cosmoshub-4", 5000, false⟩ 4950 rfl (by decide) rfl rfl (by decide) rfl
  exact ⟨h1.1, h2.1, h2.2.2.1⟩

end CosmosUpgradeWatcher

namespace CosmosUpgradeWatcher

/-- Helper: the events prefixing trick of `tick` leaves the result
unchanged. -/
theorem tick_result_eq (cid : String) (th : Int) (table : Option LedgerRecord) (env : Env) :
    (tick cid th table env).result = (tickCore cid th table env).result := rfl

/-- Helper: the events prefixing trick of `tick` leaves the ledger
unchanged. -/
theorem tick_ledger_eq (cid : String) (th : Int) (table : Option LedgerRecord) (env : Env) :
    (tick cid th table env).ledger = (tickCore cid th table env).ledger := rfl

/-- Helper: the already-tracked branch never performs an
`INSERT OR REPLACE` ledger write. -/
theorem upsert_mem_caseTracked (th : Int) (rec : LedgerRecord) (env : Env)
    (evs : List Event) :
    Event.upsertUpgrade ∈ (caseTracked th rec env evs).events ↔
      Event.upsertUpgrade ∈ evs := by
  cases hbf : env.blockFetch with
  | fetched cur =>
    simp only [caseTracked, hbf]
    split
    · cases hrr : env.remindSendRaises <;> cases hrf : env.reminderWriteFails <;>
        simp [update_db_reminder, hrr, hrf]
    · simp
  | blockNotInRequest => simp [caseTracked, hbf]
  | blockRequestFailed => simp [caseTracked, hbf]

/-- Helper: the already-tracked branch leaves the ledger row unchanged,
except possibly for setting the reminder flag. -/
theorem caseTracked_ledger (th : Int) (rec : LedgerRecord) (env : Env) (evs : List Event) :
    (caseTracked th rec env evs).ledger = some rec ∨
    (caseTracked th rec env evs).ledger = some { rec with reminderSent := true } := by
  cases hbf : env.blockFetch with
  | fetched cur =>
    simp only [caseTracked, hbf]
    split
    · cases hrr : env.remindSendRaises <;> cases hrf : env.reminderWriteFails <;>
        simp [update_db_reminder, hrr, hrf]
    · simp
  | blockNotInRequest => simp [caseTracked, hbf]
  | blockRequestFailed => simp [caseTracked, hbf]

/-- Helper: a tick that observes a height no greater than the recorded
one sends no notice, performs no upsert, and preserves the recorded row
up to the reminder flag. -/
theorem tick_tracked (cid : String) (th : Int) (rec : LedgerRecord) (env : Env)
    (plan : Plan) (s : String) (h : Int)
    (hfetch : env.planFetch = .fetched (some plan))
    (hs : plan.heightField = some s) (hp : pyIntOfString s = some h)
    (hle : h ≤ rec.upgradeHeight) :
    Event.sendNotice ∉ (tick cid th (some rec) env).events ∧
    Event.upsertUpgrade ∉ (tick cid th (some rec) env).events ∧
    ((tick cid th (some rec) env).ledger = some rec ∨
     (tick cid th (some rec) env).ledger = some { rec with reminderSent := true }) := by
  refine ⟨?_, ?_, ?_⟩
  · have hmem := sendNotice_mem_caseTracked th rec env [Event.recordCheck, Event.readLedger]
    simp [tick, tickCore, hfetch, hs, hp, hle, hmem]
  · have hmem := upsert_mem_caseTracked th rec env [Event.recordCheck, Event.readLedger]
    simp [tick, tickCore, hfetch, hs, hp, hle, hmem]
  · have hmem := caseTracked_ledger th rec env [Event.recordCheck, Event.readLedger]
    rw [tick_ledger_eq]
    simp only [tickCore, hfetch, hs, hp]
    rw [if_pos hle]
    exact hmem

/-- Helper: once the ledger holds a record of height at least the height
observed by every tick of a run, the run never sends a notice and never
upserts. -/
theorem runTicks_tracked_zero (cid : String) (th h : Int) (envs : List Env) :
    ∀ rec : LedgerRecord, h ≤ rec.upgradeHeight →
    (∀ e ∈ envs, observesHeight e h) →
    noticeCount (runTicks cid th (some rec) envs) = 0 ∧
    upsertCount (runTicks cid th (some rec) envs) = 0 := by
  induction envs with
  | nil => intro rec _ _; simp [runTicks, noticeCount, upsertCount]
  | cons e es ih =>
    intro rec hle hall
    obtain ⟨plan, s, hfetch, hs, hp⟩ := hall e (List.mem_cons_self e es)
    have ht := tick_tracked cid th rec e plan s h hfetch hs hp hle
    cases hres : (tick cid th (some rec) e).result with
    | nextTick =>
      have hrun : runTicks cid th (some rec) (e :: es) =
          tick cid th (some rec) e :: runTicks cid th (tick cid th (some rec) e).ledger es := by
        simp [runTicks, hres]
      have hallTail : ∀ e' ∈ es, observesHeight e' h :=
        fun e' he' => hall e' (List.mem_cons_of_mem _ he')
      rcases ht.2.2 with hled | hled
      · have htail := ih rec hle hallTail
        rw [hrun, hled]
        simp only [noticeCount, upsertCount, List.countP_cons] at htail ⊢
        simp [htail.1, htail.2, ht.1, ht.2.1]
      · have htail := ih { rec with reminderSent := true } (by simpa using hle) hallTail
        rw [hrun, hled]
        simp only [noticeCount, upsertCount, List.countP_cons] at htail ⊢
        simp [htail.1, htail.2, ht.1, ht.2.1]
    | halted =>
      have hrun : runTicks cid th (some rec) (e :: es) = [tick cid th (some rec) e] := by
        simp [runTicks, hres]
      rw [hrun]
      simp [noticeCount, upsertCount, List.countP_cons, ht.1, ht.2.1]
    | raised ex =>
      have hrun : runTicks cid th (some rec) (e :: es) = [tick cid th (some rec) e] := by
        simp [runTicks, hres]
      rw [hrun]
      simp [noticeCount, upsertCount, List.countP_cons, ht.1, ht.2.1]

/-- Helper: a new-upgrade tick (ledger empty or recorded height lower)
with a succeeding sqlite write either dies on its raising notice send or
completes and records exactly the observed height with the reminder flag
cleared. -/
theorem tick_new_result (cid : String) (th : Int) (table : Option LedgerRecord) (env : Env)
    (plan : Plan) (s : String) (h : Int)
    (hfetch : env.planFetch = .fetched (some plan))
    (hs : plan.heightField = some s) (hp : pyIntOfString s = some h)
    (hnew : table = none ∨ ∃ rec, table = some rec ∧ rec.upgradeHeight < h)
    (huf : env.upgradeWriteFails = false) :
    (tick cid th table env).result = .raised .slackError ∨
    ((tick cid th table env).result = .nextTick ∧
     (tick cid th table env).ledger = some ⟨cid, h, false⟩) := by
  rcases hnew with rfl | ⟨rec, rfl, hlt⟩
  · cases hn : env.notifySendRaises <;>
      simp [tick, tickCore, caseNewUpgrade, update_db_upgrade, hfetch, hs, hp, hn, huf]
  · have hnle : ¬ h ≤ rec.upgradeHeight := by omega
    cases hn : env.notifySendRaises <;>
      simp [tick, tickCore, caseNewUpgrade, update_db_upgrade, hfetch, hs, hp, hn, huf, hnle]

/-- C2: across any run of consecutive ticks all observing the same plan
height, once the ledger holds a record with that height, no tick of the
run dispatches a notice or performs an `upsertUpgrade` write; and, with
the ledger writes succeeding, at most one new-upgrade notice is
dispatched over the whole run whatever the starting ledger. -/
theorem same_height_at_most_one_notice (cid : String) (th h : Int)
    (table : Option LedgerRecord) (envs : List Env)
    (hall : ∀ e ∈ envs, observesHeight e h) :
    ((∀ e ∈ envs, e.upgradeWriteFails = false) →
      noticeCount (runTicks cid th table envs) ≤ 1) ∧
    (∀ rec, table = some rec → rec.upgradeHeight = h →
      noticeCount (runTicks cid th table envs) = 0 ∧
      upsertCount (runTicks cid th table envs) = 0) := by
  refine ⟨fun hwr => ?_, fun rec hrec hh => by
    subst hrec
    exact runTicks_tracked_zero cid th h envs rec hh.ge hall⟩
  cases envs with
  | nil => simp [runTicks, noticeCount]
  | cons e es =>
    obtain ⟨plan, s, hfetch, hs, hp⟩ := hall e (List.mem_cons_self e es)
    have huf := hwr e (List.mem_cons_self e es)
    have hallTail : ∀ e' ∈ es, observesHeight e' h :=
      fun e' he' => hall e' (List.mem_cons_of_mem _ he')
    by_cases htracked : ∃ rec, table = some rec ∧ h ≤ rec.upgradeHeight
    · obtain ⟨rec, rfl, hle⟩ := htracked
      have hzero := runTicks_tracked_zero cid th h (e :: es) rec hle hall
      omega
    · have hnew : table = none ∨ ∃ rec, table = some rec ∧ rec.upgradeHeight < h := by
        cases table with
        | none => exact Or.inl rfl
        | some rec =>
          refine Or.inr ⟨rec, rfl, ?_⟩
          have : ¬ h ≤ rec.upgradeHeight := fun hle => htracked ⟨rec, rfl, hle⟩
          omega
      rcases tick_new_result cid th table e plan s h hfetch hs hp hnew huf with
        hres | ⟨hres, hled⟩
      · have hrun : runTicks cid th table (e :: es) = [tick cid th table e] := by
          simp [runTicks, hres]
        rw [hrun]
        exact le_trans (List.countP_le_length _) (by simp)
      · have hrun : runTicks cid th table (e :: es) =
            tick cid th table e :: runTicks cid th (some ⟨cid, h, false⟩) es := by
          simp [runTicks, hres, hled]
        have htail := runTicks_tracked_zero cid th h es ⟨cid, h, false⟩ (le_refl h) hallTail
        rw [hrun]
        simp only [noticeCount, List.countP_cons] at htail ⊢
        rw [htail.1]
        split <;> omega

/-- C2 witness: two consecutive ticks observing height 5000 from an
empty ledger dispatch at most one notice. -/
theorem same_height_at_most_one_notice_wit :
    noticeCount (runTicks "cosmoshub-4" 100 none
      [mkEnv (.fetched (some ⟨"v2", some "5000"⟩)) (.fetched 4950),
       mkEnv (.fetched (some ⟨"v2", some "5000"⟩)) (.fetched 4950)]) ≤ 1 :=
  (same_height_at_most_one_notice "cosmoshub-4" 100 5000 none
    [mkEnv (.fetched (some ⟨"v2", some "5000"⟩)) (.fetched 4950),
     mkEnv (.fetched (some ⟨"v2", some "5000"⟩)) (.fetched 4950)]
    (by
      intro e he
      simp only [List.mem_cons, List.not_mem_nil, or_false] at he
      rcases he with rfl | rfl <;>
        exact ⟨⟨"v2", some "5000"⟩, "5000", rfl, rfl, by decide⟩)).1
    (by
      intro e he
      simp only [List.mem_cons, List.not_mem_nil, or_false] at he
      rcases he with rfl | rfl <;> rfl)

/-- Helper: the new-upgrade branch never calls `remind_slack`. -/
theorem sendReminder_mem_caseNewUpgrade (cid : String) (table : Option LedgerRecord)
    (env : Env) (plan : Plan) (evs : List Event) :
    Event.sendReminder ∈ (caseNewUpgrade cid table env plan evs).events ↔
      Event.sendReminder ∈ evs := by
  cases hhf : plan.heightField with
  | none => simp [caseNewUpgrade, hhf]
  | some s =>
    cases hn : env.notifySendRaises with
    | true => simp [caseNewUpgrade, hhf, hn]
    | false =>
      cases hu : update_db_upgrade cid table plan env.upgradeWriteFails <;>
        simp [caseNewUpgrade, hhf, hn, hu]

/-- Helper: if the new-upgrade branch performed no successful
`INSERT OR REPLACE`, the ledger is unchanged. -/
theorem caseNewUpgrade_ledger_of_not_upsert (cid : String) (table : Option LedgerRecord)
    (env : Env) (plan : Plan) (evs : List Event)
    (hno : Event.upsertUpgrade ∉ (caseNewUpgrade cid table env plan evs).events) :
    (caseNewUpgrade cid table env plan evs).ledger = table := by
  cases hhf : plan.heightField with
  | none => simp [caseNewUpgrade, hhf]
  | some s =>
    cases hn : env.notifySendRaises with
    | true => simp [caseNewUpgrade, hhf, hn]
    | false =>
      cases hu : update_db_upgrade cid table plan env.upgradeWriteFails with
      | wrote t => exact absurd (by simp [caseNewUpgrade, hhf, hn, hu]) hno
      | writeFailed => simp [caseNewUpgrade, hhf, hn, hu]
      | raisedExn e2 => simp [caseNewUpgrade, hhf, hn, hu]

/-- Helper: with the reminder flag already set, the already-tracked
branch neither reminds nor changes the ledger. -/
theorem caseTracked_flagTrue (th : Int) (rec : LedgerRecord) (env : Env) (evs : List Event)
    (hflag : rec.reminderSent = true) :
    (Event.sendReminder ∈ (caseTracked th rec env evs).events ↔
      Event.sendReminder ∈ evs) ∧
    (caseTracked th rec env evs).ledger = some rec := by
  cases hbf : env.blockFetch with
  | fetched cur =>
    simp only [caseTracked, hbf]
    rw [if_neg (by simp [hflag])]
    simp
  | blockNotInRequest => simp [caseTracked, hbf]
  | blockRequestFailed => simp [caseTracked, hbf]

/-- Helper: a tick starting from a row whose reminder flag is set never
calls `remind_slack`, and unless it performed an upsert it leaves the
row unchanged. -/
theorem tick_flagTrue (cid : String) (th : Int) (rec : LedgerRecord) (env : Env)
    (hflag : rec.reminderSent = true) :
    Event.sendReminder ∉ (tick cid th (some rec) env).events ∧
    (Event.upsertUpgrade ∉ (tick cid th (some rec) env).events →
      (tick cid th (some rec) env).ledger = some rec) := by
  cases hpf : env.planFetch with
  | planNotInRequest => simp [tick, tickCore, hpf]
  | upgradeRequestFailed => simp [tick, tickCore, hpf]
  | fetched planOpt =>
    cases planOpt with
    | none => simp [tick, tickCore, hpf]
    | some plan =>
      cases hhf : plan.heightField with
      | none => simp [tick, tickCore, hpf, hhf]
      | some s =>
        cases hip : pyIntOfString s with
        | none => simp [tick, tickCore, hpf, hhf, hip]
        | some hgt =>
          by_cases hle : hgt ≤ rec.upgradeHeight
          · have hct := caseTracked_flagTrue th rec env [Event.recordCheck, Event.readLedger]
              hflag
            refine ⟨?_, fun _ => ?_⟩
            · simp [tick, tickCore, hpf, hhf, hip, hle, hct.1]
            · rw [tick_ledger_eq]
              simp only [tickCore, hpf, hhf, hip]
              rw [if_pos hle]
              exact hct.2
          · refine ⟨?_, fun hnoup => ?_⟩
            · have := sendReminder_mem_caseNewUpgrade cid (some rec) env plan
                [Event.recordCheck, Event.readLedger]
              simp [tick, tickCore, hpf, hhf, hip, hle, this]
            · have hcore : Event.upsertUpgrade ∉
                  (caseNewUpgrade cid (some rec) env plan
                    [Event.recordCheck, Event.readLedger]).events := by
                intro hmem
                exact hnoup (by simp [tick, tickCore, hpf, hhf, hip, hle, hmem])
              rw [tick_ledger_eq]
              simp only [tickCore, hpf, hhf, hip]
              rw [if_neg hle]
              exact caseNewUpgrade_ledger_of_not_upsert cid (some rec) env plan
                [Event.recordCheck, Event.readLedger] hcore

/-- C3: once the ledger row's reminder flag is set, no tick of any
following run dispatches `remind_slack` as long as no `upsertUpgrade`
write (which records a new, different height) occurs in that run. -/
theorem reminder_at_most_once_until_new_height (cid : String) (th : Int)
    (rec : LedgerRecord) (envs : List Env) (hflag : rec.reminderSent = true)
    (hnoups : upsertCount (runTicks cid th (some rec) envs) = 0) :
    reminderCount (runTicks cid th (some rec) envs) = 0 := by
  induction envs with
  | nil => simp [runTicks, reminderCount]
  | cons e es ih =>
    have ht := tick_flagTrue cid th rec e hflag
    cases hres : (tick cid th (some rec) e).result with
    | nextTick =>
      have hrun : runTicks cid th (some rec) (e :: es) =
          tick cid th (some rec) e :: runTicks cid th (tick cid th (some rec) e).ledger es := by
        simp [runTicks, hres]
      rw [hrun] at hnoups ⊢
      have hup : Event.upsertUpgrade ∉ (tick cid th (some rec) e).events := by
        intro hmem
        simp [upsertCount, List.countP_cons, hmem] at hnoups
      have hled := ht.2 hup
      rw [hled] at hnoups ⊢
      have htail0 : upsertCount (runTicks cid th (some rec) es) = 0 := by
        simp [upsertCount, List.countP_cons, hup] at hnoups
        simpa [upsertCount] using hnoups
      have hrem := ih htail0
      simp only [reminderCount, List.countP_cons] at hrem ⊢
      simp [hrem, ht.1]
    | halted =>
      have hrun : runTicks cid th (some rec) (e :: es) = [tick cid th (some rec) e] := by
        simp [runTicks, hres]
      rw [hrun]
      simp [reminderCount, List.countP_cons, ht.1]
    | raised ex =>
      have hrun : runTicks cid th (some rec) (e :: es) = [tick cid th (some rec) e] := by
        simp [runTicks, hres]
      rw [hrun]
      simp [reminderCount, List.countP_cons, ht.1]

/-- C3 witness: with the flag set and an upsert-free run, no reminder is
dispatched. -/
theorem reminder_at_most_once_until_new_height_wit :
    reminderCount (runTicks "cosmoshub-4" 100 (some ⟨"cosmoshub-4", 5000, true⟩)
      [mkEnv (.fetched (some ⟨"v2", some "5000"⟩)) (.fetched 4950)]) = 0 :=
  reminder_at_most_once_until_new_height "cosmoshub-4" 100 ⟨"cosmoshub-4", 5000, true⟩
    [mkEnv (.fetched (some ⟨"v2", some "5000"⟩)) (.fetched 4950)] rfl (by decide)

end CosmosUpgradeWatcher
